import Mathlib

/-!
Shallow embedding of the `steelseries-sonar-js` client (`src/sonar.ts` and
`src/exceptions.ts`) in Lean 4, together with theorems settling the spec
claims about it.

Modelling conventions:
* HTTP is an external collaborator.  Every method performs at most one HTTP
  call, so an operation is embedded as a pure function that receives the
  outcome of that call (`HttpResult`) as an argument and returns the pair of
  (its `Except` result, the list of requests it issued).  An empty request
  list means the operation failed before touching the network.
* Thrown exceptions become `Except.error`.  The typed `SonarError` hierarchy
  of `exceptions.ts` is the inductive `SonarError`; a transport error that
  carries no HTTP response is re-thrown unchanged by every method
  (`throw error` in the shared catch block), which the embedding renders as
  the distinct `OpError.transport` constructor.
* JavaScript numbers are embedded as `Rat`; the concrete values exercised by
  the spec (0, 0.5, 1, -1, …) are exact in both representations.
* The local `coreProps.json` file is an external collaborator as well: the
  inductive `CorePropsFile` enumerates the observationally distinct outcomes
  of `fs.existsSync` / `fs.readFileSync` / `JSON.parse` /
  `.ggEncryptedAddress` access that `loadBaseUrl` can see.
-/

/-- Equality of `Except` values is decidable when it is on both sides;
used to evaluate the operations at concrete inputs. -/
instance {ε α : Type} [DecidableEq ε] [DecidableEq α] : DecidableEq (Except ε α) :=
  fun a b =>
    match a, b with
    | .ok x, .ok y =>
        if h : x = y then .isTrue (by rw [h])
        else .isFalse (fun hc => h (by cases hc; rfl))
    | .error x, .error y =>
        if h : x = y then .isTrue (by rw [h])
        else .isFalse (fun hc => h (by cases hc; rfl))
    | .ok _, .error _ => .isFalse (fun hc => Except.noConfusion hc)
    | .error _, .ok _ => .isFalse (fun hc => Except.noConfusion hc)

/-- One HTTP request issued by the client: method and fully built URL. -/
structure Request where
  method : String
  url : String
deriving DecidableEq, Repr

/-- The typed error hierarchy of `src/exceptions.ts`, with each class's
diagnostic payload. -/
inductive SonarError where
  | enginePathNotFound
  | serverNotAccessible (statusCode : Nat)
  | sonarNotEnabled
  | serverNotReady
  | serverNotRunning
  | webServerAddressNotFound
  | channelNotFound (channel : String)
  | sliderNotFound (slider : String)
  | invalidVolume (volume : Rat)
  | invalidMixVolume (mixVolume : Rat)
deriving DecidableEq, Repr

/-- An operation either throws one of the typed `SonarError`s or re-throws an
unknown transport error that carried no HTTP response (`throw error` in the
catch blocks).  The latter is kept abstract: all the code does with it is
propagate it unchanged. -/
inductive OpError where
  | sonar (e : SonarError)
  | transport
deriving DecidableEq, Repr

/-- Outcome of one axios call, as observable by the calling method:
a resolved response (any status — the code checks `status !== 200` itself),
an axios error that exposes `error.response.status`, or an axios/unknown
error with no response attached. -/
inductive HttpResult (α : Type) where
  | response (status : Nat) (data : α)
  | axiosErrorWithResponse (status : Nat)
  | axiosErrorNoResponse
deriving DecidableEq, Repr

/-- The failure-translation pattern shared verbatim by every method body:
`if (response.status !== 200) throw new ServerNotAccessibleError(status)`
inside `try`, and
`catch { if (axios.isAxiosError(e) && e.response) throw new
ServerNotAccessibleError(e.response.status); throw e; }`. -/
def Sonar.handleHttp {α : Type} (net : HttpResult α) : Except OpError α :=
  match net with
  | .response status data =>
      if status ≠ 200 then .error (.sonar (.serverNotAccessible status))
      else .ok data
  | .axiosErrorWithResponse status => .error (.sonar (.serverNotAccessible status))
  | .axiosErrorNoResponse => .error .transport

/-- `Sonar.CHANNEL_NAMES` (chatCapture = mic). -/
def Sonar.CHANNEL_NAMES : List String :=
  ["master", "game", "chatRender", "media", "aux", "chatCapture"]

/-- `Sonar.STREAMER_SLIDER_NAMES`. -/
def Sonar.STREAMER_SLIDER_NAMES : List String :=
  ["streaming", "monitoring"]

/-- `Sonar.VOLUME_PATH`. -/
def Sonar.VOLUME_PATH : String := "/volumeSettings/classic"

/-- `Sonar.STREAMER_VOLUME_PATH`. -/
def Sonar.STREAMER_VOLUME_PATH : String := "/volumeSettings/streamer"

/-- The mutable fields of a `Sonar` instance. -/
structure SonarState where
  appDataPath : String
  baseUrl : String
  webServerAddress : String
  volumePath : String
  streamerMode : Bool
deriving DecidableEq, Repr

/-- `SonarOptions`: both fields optional. -/
structure SonarOptions where
  appDataPath : Option String
  streamerMode : Option Bool
deriving DecidableEq, Repr

/-- Observationally distinct states of the local `coreProps.json` file as
seen by `loadBaseUrl`:
* `missing` — `fs.existsSync` is false;
* `unreadable` — `fs.readFileSync` throws;
* `parseError` — `JSON.parse` throws;
* `parsedNull` — the file parses to `null`, so the `.ggEncryptedAddress`
  access throws a TypeError (caught, like the two above);
* `parsedObject a` — the file parses to a value on which the field access
  succeeds; `a = none` means the field is absent (or the value is a
  primitive), so the access yields `undefined` and the template literal
  interpolates the string "undefined". -/
inductive CorePropsFile where
  | missing
  | unreadable
  | parseError
  | parsedNull
  | parsedObject (ggEncryptedAddress : Option String)
deriving DecidableEq, Repr

/-- The fields of the `GET /subApps` payload that `loadServerAddress` reads
(`subApps.sonar.isEnabled / isReady / isRunning / metadata.webServerAddress`),
flattened. -/
structure SubAppInfo where
  isEnabled : Bool
  isReady : Bool
  isRunning : Bool
  webServerAddress : String
deriving DecidableEq, Repr

/-- The external world as seen by `Sonar.create`: the config file, the
outcome of the `GET <baseUrl>/subApps` call, and the outcome of the
`GET <webServerAddress>/mode/` probe (used only when `options.streamerMode`
is undefined). -/
structure Env where
  file : CorePropsFile
  subApps : HttpResult SubAppInfo
  modeProbe : HttpResult String
deriving DecidableEq, Repr

/-- `JSON.stringify` on a boolean. -/
def jsonStringifyBool (b : Bool) : String :=
  if b then "true" else "false"

/-- Decimal digits of the fractional part `n / d` (with `n < d`), most
significant first; stops when the remainder is zero.  Fuel-bounded; every
value exercised here has a short finite decimal expansion. -/
def fracDigits : Nat → Nat → Nat → String
  | _, _, 0 => ""
  | n, d, fuel + 1 =>
      if n = 0 then ""
      else Nat.repr (n * 10 / d) ++ fracDigits (n * 10 % d) d fuel

/-- `JSON.stringify` on a non-negative number: integer part, then a dot and
the fractional digits when the fractional part is non-zero. -/
def jsonStringifyNonnegNum (q : Rat) : String :=
  let n : Nat := q.num.toNat % q.den
  if n = 0 then Nat.repr (q.num.toNat / q.den)
  else Nat.repr (q.num.toNat / q.den) ++ "." ++ fracDigits n q.den 30

/-- `JSON.stringify` on a number (as interpolated into the URLs). -/
def jsonStringifyNum (q : Rat) : String :=
  if q < 0 then "-" ++ jsonStringifyNonnegNum (-q) else jsonStringifyNonnegNum q

/-- The private constructor `new Sonar(options)`.  `getDefaultAppDataPath`
consults the OS (an external collaborator), so the platform-default path is a
parameter. -/
def Sonar.init (options : SonarOptions) (defaultAppDataPath : String) : SonarState :=
  let sm : Bool := options.streamerMode.getD false
  { appDataPath := options.appDataPath.getD defaultAppDataPath
    baseUrl := ""
    webServerAddress := ""
    volumePath := if sm then Sonar.STREAMER_VOLUME_PATH else Sonar.VOLUME_PATH
    streamerMode := sm }

/-- `Sonar.loadBaseUrl`: throw `EnginePathNotFoundError` when the file is
missing, and for any exception out of read / parse / field access; otherwise
set `baseUrl` to the template `https://` ++ the (possibly "undefined")
address. -/
def Sonar.loadBaseUrl (s : SonarState) (file : CorePropsFile) :
    Except SonarError SonarState :=
  match file with
  | .missing => .error .enginePathNotFound
  | .unreadable => .error .enginePathNotFound
  | .parseError => .error .enginePathNotFound
  | .parsedNull => .error .enginePathNotFound
  | .parsedObject ggEncryptedAddress =>
      let a : String := ggEncryptedAddress.getD "undefined"
      .ok { s with baseUrl := "https://" ++ a }

/-- `Sonar.loadServerAddress`: handle the `GET <baseUrl>/subApps` outcome,
check `isEnabled`, `isReady`, `isRunning` in that order, store the
web-server address, and reject it when empty or the literal "null".
The `SonarError`s thrown inside the `try` are not axios errors, so the
catch block re-throws them unchanged. -/
def Sonar.loadServerAddress (s : SonarState) (net : HttpResult SubAppInfo) :
    Except OpError SonarState :=
  match Sonar.handleHttp net with
  | .error e => .error e
  | .ok info =>
      if !info.isEnabled then .error (.sonar .sonarNotEnabled)
      else if !info.isReady then .error (.sonar .serverNotReady)
      else if !info.isRunning then .error (.sonar .serverNotRunning)
      else
        let addr := info.webServerAddress
        if addr = "" ∨ addr = "null" then .error (.sonar .webServerAddressNotFound)
        else .ok { s with webServerAddress := addr }

/-- `Sonar.isStreamerMode`: `GET <webServerAddress>/mode/`, shared failure
translation, and `response.data === 'stream'` on success. -/
def Sonar.isStreamerMode (s : SonarState) (net : HttpResult String) :
    Except OpError Bool × List Request :=
  let req : Request := ⟨"GET", s.webServerAddress ++ "/mode/"⟩
  match Sonar.handleHttp net with
  | .error e => (.error e, [req])
  | .ok data => (.ok (data == "stream"), [req])

/-- `Sonar.setStreamerMode`: `PUT <webServerAddress>/mode/<stream|classic>`;
on a 200 response the new flag is re-derived from the echoed body
(`response.data === 'stream'`), the volume path is recomputed from the flag,
and the flag is returned.  Returns the updated state alongside the result. -/
def Sonar.setStreamerMode (s : SonarState) (streamerMode : Bool)
    (net : HttpResult String) :
    Except OpError (Bool × SonarState) × List Request :=
  let mode : String := if streamerMode then "stream" else "classic"
  let req : Request := ⟨"PUT", s.webServerAddress ++ "/mode/" ++ mode⟩
  match Sonar.handleHttp net with
  | .error e => (.error e, [req])
  | .ok data =>
      let sm : Bool := data == "stream"
      let s' := { s with
        streamerMode := sm
        volumePath := if sm then Sonar.STREAMER_VOLUME_PATH else Sonar.VOLUME_PATH }
      (.ok (sm, s'), [req])

/-- `Sonar.getVolumeData`: `GET <webServerAddress><volumePath>`, shared
failure translation, body returned unchanged. -/
def Sonar.getVolumeData {β : Type} (s : SonarState) (net : HttpResult β) :
    Except OpError β × List Request :=
  (Sonar.handleHttp net, [⟨"GET", s.webServerAddress ++ s.volumePath⟩])

/-- `Sonar.setVolume(channel, volume, streamerSlider = 'streaming')`:
validate channel, then (in streamer mode only) slider, then volume range;
build `<volumePath>[/<slider>]/<channel>/Volume/<JSON.stringify(volume)>`
and PUT it.  Validation failures throw before any request is issued. -/
def Sonar.setVolume {β : Type} (s : SonarState) (channel : String)
    (volume : Rat) (streamerSlider : String) (net : HttpResult β) :
    Except OpError β × List Request :=
  if channel ∉ Sonar.CHANNEL_NAMES then
    (.error (.sonar (.channelNotFound channel)), [])
  else if s.streamerMode ∧ streamerSlider ∉ Sonar.STREAMER_SLIDER_NAMES then
    (.error (.sonar (.sliderNotFound streamerSlider)), [])
  else if volume < 0 ∨ volume > 1 then
    (.error (.sonar (.invalidVolume volume)), [])
  else
    let fullVolumePath :=
      if s.streamerMode then s.volumePath ++ "/" ++ streamerSlider else s.volumePath
    let url := s.webServerAddress ++ fullVolumePath ++ "/" ++ channel ++
      "/Volume/" ++ jsonStringifyNum volume
    (Sonar.handleHttp net, [⟨"PUT", url⟩])

/-- `Sonar.muteChannel(channel, muted, streamerSlider = 'streaming')`:
same channel/slider validation as `setVolume`, no volume check; the mute
segment is `isMuted` in streamer mode and `Mute` in classic mode, the value
is `JSON.stringify(muted)`. -/
def Sonar.muteChannel {β : Type} (s : SonarState) (channel : String)
    (muted : Bool) (streamerSlider : String) (net : HttpResult β) :
    Except OpError β × List Request :=
  if channel ∉ Sonar.CHANNEL_NAMES then
    (.error (.sonar (.channelNotFound channel)), [])
  else if s.streamerMode ∧ streamerSlider ∉ Sonar.STREAMER_SLIDER_NAMES then
    (.error (.sonar (.sliderNotFound streamerSlider)), [])
  else
    let fullVolumePath :=
      if s.streamerMode then s.volumePath ++ "/" ++ streamerSlider else s.volumePath
    let muteKeyword := if s.streamerMode then "isMuted" else "Mute"
    let url := s.webServerAddress ++ fullVolumePath ++ "/" ++ channel ++ "/" ++
      muteKeyword ++ "/" ++ jsonStringifyBool muted
    (Sonar.handleHttp net, [⟨"PUT", url⟩])

/-- `Sonar.getChatMixData`: `GET <webServerAddress>/chatMix`. -/
def Sonar.getChatMixData {β : Type} (s : SonarState) (net : HttpResult β) :
    Except OpError β × List Request :=
  (Sonar.handleHttp net, [⟨"GET", s.webServerAddress ++ "/chatMix"⟩])

/-- `Sonar.setChatMix(mixVolume)`: range check on [-1, 1], then
`PUT <webServerAddress>/chatMix?balance=<JSON.stringify(mixVolume)>`. -/
def Sonar.setChatMix {β : Type} (s : SonarState) (mixVolume : Rat)
    (net : HttpResult β) : Except OpError β × List Request :=
  if mixVolume < -1 ∨ mixVolume > 1 then
    (.error (.sonar (.invalidMixVolume mixVolume)), [])
  else
    (Sonar.handleHttp net,
     [⟨"PUT", s.webServerAddress ++ "/chatMix?balance=" ++ jsonStringifyNum mixVolume⟩])

/-- `Sonar.create(options)`: run the private constructor, `loadBaseUrl`,
`loadServerAddress`; then, only when `options.streamerMode` is undefined,
probe `isStreamerMode` — a successful probe installs the detected flag (and
the streamer path when true), any probe failure is swallowed and the flag is
forced to false.  Returns the constructed state and the list of HTTP
requests issued, in order. -/
def Sonar.create (options : SonarOptions) (defaultAppDataPath : String)
    (env : Env) : Except OpError SonarState × List Request :=
  let sonar := Sonar.init options defaultAppDataPath
  match Sonar.loadBaseUrl sonar env.file with
  | .error e => (.error (.sonar e), [])
  | .ok s1 =>
      let subAppsReq : Request := ⟨"GET", s1.baseUrl ++ "/subApps"⟩
      match Sonar.loadServerAddress s1 env.subApps with
      | .error e => (.error e, [subAppsReq])
      | .ok s2 =>
          match options.streamerMode with
          | some _ => (.ok s2, [subAppsReq])
          | none =>
              let probe := Sonar.isStreamerMode s2 env.modeProbe
              match probe.1 with
              | .ok sm =>
                  let s3 := if sm then
                    { s2 with streamerMode := true,
                              volumePath := Sonar.STREAMER_VOLUME_PATH }
                  else { s2 with streamerMode := false }
                  (.ok s3, subAppsReq :: probe.2)
              | .error _ =>
                  (.ok { s2 with streamerMode := false }, subAppsReq :: probe.2)

/-- The mode/path coherence invariant: the stored volume path is the one
derived from the streamer-mode flag. -/
def Sonar.pathInv (s : SonarState) : Prop :=
  s.volumePath = if s.streamerMode then Sonar.STREAMER_VOLUME_PATH else Sonar.VOLUME_PATH

/-- Fixture: a fully resolved classic-mode client state, as produced by a
successful `Sonar.create` against the fixture environment below. -/
def classicFixture : SonarState :=
  { appDataPath := "/cfg/coreProps.json"
    baseUrl := "https://127.0.0.1:8080"
    webServerAddress := "http://127.0.0.1:9"
    volumePath := Sonar.VOLUME_PATH
    streamerMode := false }

/-- Fixture: the same client in streamer mode. -/
def streamerFixture : SonarState :=
  { classicFixture with
    volumePath := Sonar.STREAMER_VOLUME_PATH
    streamerMode := true }

/-- Claim C1, counterexample: a configuration file that parses to an object
without any `ggEncryptedAddress` field does not fail construction with
`EnginePathNotFoundError` — `loadBaseUrl` succeeds with
`baseUrl = "https://undefined"` and construction completes (here the
later network calls happen to succeed), contradicting the claim that a
parsed configuration lacking a non-empty address field is fatal before any
network request. -/
theorem C1_counterexample :
    Sonar.create { appDataPath := some "/cfg/coreProps.json", streamerMode := some false }
        "/default/coreProps.json"
        { file := .parsedObject none
          subApps := .response 200 ⟨true, true, true, "http://127.0.0.1:9"⟩
          modeProbe := .axiosErrorNoResponse } =
      (.ok { appDataPath := "/cfg/coreProps.json"
             baseUrl := "https://undefined"
             webServerAddress := "http://127.0.0.1:9"
             volumePath := Sonar.VOLUME_PATH
             streamerMode := false },
       [⟨"GET", "https://undefined/subApps"⟩])
  ∧ (Sonar.loadBaseUrl (Sonar.init ⟨some "/cfg/coreProps.json", some false⟩ "/d")
        (.parsedObject (some ""))).isOk = true := by
  decide

/-- Claim C1 (amended): client construction fails with
`EnginePathNotFoundError`, before any network request and regardless of the
network environment, whenever the configuration file is missing, unreadable,
or unparseable (including parse results on which the field access throws).
A parsed object merely lacking a non-empty address field does NOT fail at
this stage. -/
theorem C1_fails_before_network (options : SonarOptions)
    (defaultAppDataPath : String) (env : Env)
    (h : env.file = .missing ∨ env.file = .unreadable ∨ env.file = .parseError ∨
         env.file = .parsedNull) :
    Sonar.create options defaultAppDataPath env =
      (.error (.sonar .enginePathNotFound), []) := by
  rcases h with h | h | h | h <;>
    simp [Sonar.create, Sonar.loadBaseUrl, h]

/-- Claim C1, witness: the amended theorem evaluated at a missing file with
a fully healthy network environment. -/
theorem C1_fails_before_network_witness :
    Sonar.create ⟨none, none⟩ "/default/coreProps.json"
      { file := .missing
        subApps := .response 200 ⟨true, true, true, "http://127.0.0.1:9"⟩
        modeProbe := .response 200 "stream" } =
      (.error (.sonar .enginePathNotFound), []) :=
  C1_fails_before_network _ _ _ (Or.inl rfl)

/-- Claim C2: on a 200 response from `/subApps`, the readiness flags are
checked in the fixed order enabled, ready, running — the first violated flag
determines the error — and only when all three are true is the service
address examined, which raises `WebServerAddressNotFoundError` iff it is
empty or the literal "null", and otherwise resolves to that address. -/
theorem C2_flag_check_order (s : SonarState) (d : SubAppInfo) :
    (d.isEnabled = false →
      Sonar.loadServerAddress s (.response 200 d) = .error (.sonar .sonarNotEnabled))
  ∧ (d.isEnabled = true → d.isReady = false →
      Sonar.loadServerAddress s (.response 200 d) = .error (.sonar .serverNotReady))
  ∧ (d.isEnabled = true → d.isReady = true → d.isRunning = false →
      Sonar.loadServerAddress s (.response 200 d) = .error (.sonar .serverNotRunning))
  ∧ (d.isEnabled = true → d.isReady = true → d.isRunning = true →
      (Sonar.loadServerAddress s (.response 200 d) =
          .error (.sonar .webServerAddressNotFound)
        ↔ (d.webServerAddress = "" ∨ d.webServerAddress = "null")))
  ∧ (d.isEnabled = true → d.isReady = true → d.isRunning = true →
      d.webServerAddress ≠ "" → d.webServerAddress ≠ "null" →
      Sonar.loadServerAddress s (.response 200 d) =
        .ok { s with webServerAddress := d.webServerAddress }) := by
  obtain ⟨e, r, u, w⟩ := d
  refine ⟨fun h1 => ?_, fun h1 h2 => ?_, fun h1 h2 h3 => ?_, fun h1 h2 h3 => ?_,
    fun h1 h2 h3 h4 h5 => ?_⟩ <;> subst_vars
  · simp [Sonar.loadServerAddress, Sonar.handleHttp]
  · simp [Sonar.loadServerAddress, Sonar.handleHttp]
  · simp [Sonar.loadServerAddress, Sonar.handleHttp]
  · by_cases hw : w = "" ∨ w = "null" <;>
      simp [Sonar.loadServerAddress, Sonar.handleHttp, hw]
  · simp [Sonar.loadServerAddress, Sonar.handleHttp, h4, h5]

/-- Claim C2, witness: the order-of-check theorem evaluated at concrete
descriptors — `enabled = false` wins even when the other flags are false
too, and an all-true descriptor with address "null" reports the address
error. -/
theorem C2_flag_check_order_witness :
    Sonar.loadServerAddress classicFixture (.response 200 ⟨false, false, false, ""⟩) =
      .error (.sonar .sonarNotEnabled)
  ∧ Sonar.loadServerAddress classicFixture (.response 200 ⟨true, true, true, "null"⟩) =
      .error (.sonar .webServerAddressNotFound) :=
  ⟨(C2_flag_check_order classicFixture ⟨false, false, false, ""⟩).1 rfl,
   ((C2_flag_check_order classicFixture ⟨true, true, true, "null"⟩).2.2.2.1
      rfl rfl rfl).mpr (Or.inr rfl)⟩

/-- Claim C3, counterexample: in streamer mode `setVolume` inserts the
slider segment (default "streaming") between the mode path and the channel,
so the single PUT URL is not `<serviceAddress><modePath>/<channel>/Volume/<volume>`
as the claim states for every mode. -/
theorem C3_counterexample :
    Sonar.setVolume (β := String) streamerFixture "master" 1 "streaming"
        (.response 200 "ok") =
      (.ok "ok",
       [⟨"PUT", "http://127.0.0.1:9/volumeSettings/streamer/streaming/master/Volume/1"⟩])
  ∧ "http://127.0.0.1:9/volumeSettings/streamer/streaming/master/Volume/1" ≠
      streamerFixture.webServerAddress ++ streamerFixture.volumePath ++ "/" ++
        "master" ++ "/Volume/" ++ jsonStringifyNum 1 := by
  decide

/-- Claim C3 (amended): for every valid channel and volume in {0, 0.5, 1},
on a 200 response `setVolume` issues exactly one PUT and returns the decoded
body unchanged; the URL is
`<serviceAddress><modePath>/<channel>/Volume/<volume>` in classic mode, and
in streamer mode the (default "streaming") slider segment is inserted after
the mode path. -/
theorem C3_setVolume_url (s : SonarState) (channel : String) (volume : Rat)
    (body : String) (hch : channel ∈ Sonar.CHANNEL_NAMES)
    (hv : volume = 0 ∨ volume = mkRat 1 2 ∨ volume = 1) :
    Sonar.setVolume s channel volume "streaming" (.response 200 body) =
      (.ok body,
       [⟨"PUT", s.webServerAddress ++
          (if s.streamerMode then s.volumePath ++ "/" ++ "streaming"
           else s.volumePath) ++
          "/" ++ channel ++ "/Volume/" ++ jsonStringifyNum volume⟩]) := by
  have hch' : ¬ channel ∉ Sonar.CHANNEL_NAMES := not_not_intro hch
  have hsl : ¬ (s.streamerMode = true ∧ "streaming" ∉ Sonar.STREAMER_SLIDER_NAMES) :=
    fun h => h.2 (by decide)
  have hv' : ¬ (volume < 0 ∨ volume > 1) := by
    rcases hv with h | h | h <;> subst h <;> decide
  simp only [Sonar.setVolume, if_neg hch', if_neg hsl, if_neg hv']
  cases hm : s.streamerMode <;> simp [hm, Sonar.handleHttp]

/-- Claim C3, witness: the amended theorem evaluated in both fixtures at
volume 0.5 (rendered "0.5") for channel "game". -/
theorem C3_setVolume_url_witness :
    Sonar.setVolume (β := String) classicFixture "game" (mkRat 1 2) "streaming"
        (.response 200 "ack") =
      (.ok "ack",
       [⟨"PUT", "http://127.0.0.1:9/volumeSettings/classic/game/Volume/0.5"⟩])
  ∧ Sonar.setVolume (β := String) streamerFixture "game" (mkRat 1 2) "streaming"
        (.response 200 "ack") =
      (.ok "ack",
       [⟨"PUT", "http://127.0.0.1:9/volumeSettings/streamer/streaming/game/Volume/0.5"⟩]) :=
  ⟨(C3_setVolume_url classicFixture "game" (mkRat 1 2) "ack" (by decide)
      (Or.inr (Or.inl rfl))).trans (by decide),
   (C3_setVolume_url streamerFixture "game" (mkRat 1 2) "ack" (by decide)
      (Or.inr (Or.inl rfl))).trans (by decide)⟩

/-- Claim C5: on a 200 response with body `d`, `setStreamerMode b` sets the
flag to `d == "stream"` — derived from the server's echo, not from the
requested value `b` — recomputes the volume path from that flag, and
returns the flag; the request URL is the only place `b` appears. -/
theorem C5_echo_authoritative (s : SonarState) (b : Bool) (body : String) :
    Sonar.setStreamerMode s b (.response 200 body) =
      (.ok (body == "stream",
        { s with
          streamerMode := body == "stream"
          volumePath := if body == "stream" then Sonar.STREAMER_VOLUME_PATH
            else Sonar.VOLUME_PATH }),
       [⟨"PUT", s.webServerAddress ++ "/mode/" ++
          (if b then "stream" else "classic")⟩]) := by
  simp [Sonar.setStreamerMode, Sonar.handleHttp]

/-- Claim C6: with a valid channel and (when in streamer mode) a valid
slider, `setVolume` fails with `InvalidVolumeError` carrying exactly the
supplied value, issuing no request, if and only if the volume is strictly
below 0 or strictly above 1 — so the boundary values 0 and 1 are accepted. -/
theorem C6_volume_range (s : SonarState) (channel streamerSlider : String)
    (volume : Rat) {β : Type} (net : HttpResult β)
    (hch : channel ∈ Sonar.CHANNEL_NAMES)
    (hsl : s.streamerMode = true → streamerSlider ∈ Sonar.STREAMER_SLIDER_NAMES) :
    Sonar.setVolume s channel volume streamerSlider net =
        (.error (.sonar (.invalidVolume volume)), [])
      ↔ (volume < 0 ∨ volume > 1) := by
  have hch' : ¬ channel ∉ Sonar.CHANNEL_NAMES := not_not_intro hch
  have hsl' : ¬ (s.streamerMode = true ∧ streamerSlider ∉ Sonar.STREAMER_SLIDER_NAMES) :=
    fun h => h.2 (hsl h.1)
  simp only [Sonar.setVolume, if_neg hch', if_neg hsl']
  by_cases hv : volume < 0 ∨ volume > 1 <;> simp [hv]

/-- Claim C6, witness: volume 1.01 is rejected with the exact value and no
request, and the boundary volume 1 is not rejected. -/
theorem C6_volume_range_witness :
    Sonar.setVolume (β := String) classicFixture "game" (mkRat 101 100) "streaming"
        (.response 200 "ack") =
      (.error (.sonar (.invalidVolume (mkRat 101 100))), [])
  ∧ ¬ (Sonar.setVolume (β := String) classicFixture "game" 1 "streaming"
        (.response 200 "ack") =
      (.error (.sonar (.invalidVolume 1)), [])) :=
  ⟨(C6_volume_range classicFixture "game" "streaming" (mkRat 101 100)
      (.response 200 "ack") (by decide) (by decide)).mpr (by decide),
   fun h => absurd ((C6_volume_range classicFixture "game" "streaming" 1
      (.response 200 "ack") (by decide) (by decide)).mp h) (by decide)⟩

/-- Helper frame lemma: `loadBaseUrl` writes only `baseUrl`. -/
theorem Sonar.loadBaseUrl_ok_fields {s s' : SonarState} {file : CorePropsFile}
    (h : Sonar.loadBaseUrl s file = .ok s') :
    s'.volumePath = s.volumePath ∧ s'.streamerMode = s.streamerMode := by
  cases file with
  | parsedObject a =>
      simp [Sonar.loadBaseUrl] at h
      subst h
      exact ⟨rfl, rfl⟩
  | missing => simp [Sonar.loadBaseUrl] at h
  | unreadable => simp [Sonar.loadBaseUrl] at h
  | parseError => simp [Sonar.loadBaseUrl] at h
  | parsedNull => simp [Sonar.loadBaseUrl] at h

/-- Helper frame lemma: `loadServerAddress` writes only `webServerAddress`. -/
theorem Sonar.loadServerAddress_ok_fields {s s' : SonarState}
    {net : HttpResult SubAppInfo}
    (h : Sonar.loadServerAddress s net = .ok s') :
    s'.volumePath = s.volumePath ∧ s'.streamerMode = s.streamerMode := by
  unfold Sonar.loadServerAddress at h
  cases hh : Sonar.handleHttp net with
  | error e => rw [hh] at h; simp at h
  | ok info =>
      rw [hh] at h
      by_cases h1 : info.isEnabled = true
      case neg => simp [h1] at h
      case pos =>
        by_cases h2 : info.isReady = true
        case neg => simp [h1, h2] at h
        case pos =>
          by_cases h3 : info.isRunning = true
          case neg => simp [h1, h2, h3] at h
          case pos =>
            by_cases h4 : info.webServerAddress = "" ∨ info.webServerAddress = "null"
            case pos => simp [h1, h2, h3, h4] at h
            case neg =>
              simp [h1, h2, h3, h4] at h
              subst h
              exact ⟨rfl, rfl⟩

/-- Claim C4: the stored volume path is always the constant derived from the
streamer-mode flag (`Sonar.pathInv`).  It is established by the constructor
and by the factory, preserved by the two resolution steps, re-established by
every successful `setStreamerMode` (the only public operation that writes
either field), and consequently a `getVolumeData` immediately after a
`setStreamerMode` that switched to streamer mode issues its GET on the
streamer volume path without any re-resolution. -/
theorem C4_path_flag_coherence :
    (∀ options defaultAppDataPath,
      Sonar.pathInv (Sonar.init options defaultAppDataPath))
  ∧ (∀ options defaultAppDataPath env s',
      (Sonar.create options defaultAppDataPath env).1 = .ok s' → Sonar.pathInv s')
  ∧ (∀ s file s', Sonar.pathInv s → Sonar.loadBaseUrl s file = .ok s' →
      Sonar.pathInv s')
  ∧ (∀ s net s', Sonar.pathInv s → Sonar.loadServerAddress s net = .ok s' →
      Sonar.pathInv s')
  ∧ (∀ s b net r s' reqs, Sonar.setStreamerMode s b net = (.ok (r, s'), reqs) →
      Sonar.pathInv s')
  ∧ (∀ s b net s' (β : Type) (net2 : HttpResult β),
      (Sonar.setStreamerMode s b net).1 = .ok (true, s') →
      (Sonar.getVolumeData s' net2).2 =
        [⟨"GET", s'.webServerAddress ++ Sonar.STREAMER_VOLUME_PATH⟩]) := by
  have hinit : ∀ options defaultAppDataPath,
      Sonar.pathInv (Sonar.init options defaultAppDataPath) := by
    intro o dp
    cases h : o.streamerMode.getD false <;>
      simp [Sonar.init, Sonar.pathInv, h]
  have hmode : ∀ (s : SonarState) (b : Bool) (net : HttpResult String) r s' reqs,
      Sonar.setStreamerMode s b net = (.ok (r, s'), reqs) → Sonar.pathInv s' := by
    intro s b net r s' reqs h
    unfold Sonar.setStreamerMode at h
    cases hh : Sonar.handleHttp net with
    | error e => rw [hh] at h; simp at h
    | ok data =>
        rw [hh] at h
        simp at h
        obtain ⟨⟨-, h2⟩, -⟩ := h
        subst h2
        cases hst : data == "stream" with
        | false =>
            have hne : ¬ data = "stream" := by simpa using hst
            simp [Sonar.pathInv, hst, hne]
        | true =>
            have heq : data = "stream" := by simpa using hst
            simp [Sonar.pathInv, hst, heq]
  refine ⟨hinit, ?_, ?_, ?_, hmode, ?_⟩
  · intro o dp env s' h
    simp only [Sonar.create] at h
    cases hLB : Sonar.loadBaseUrl (Sonar.init o dp) env.file with
    | error e => rw [hLB] at h; simp at h
    | ok s1 =>
        rw [hLB] at h
        dsimp only at h
        cases hLS : Sonar.loadServerAddress s1 env.subApps with
        | error e => rw [hLS] at h; simp at h
        | ok s2 =>
            rw [hLS] at h
            dsimp only at h
            have hinv2 : Sonar.pathInv s2 := by
              have h1 := Sonar.loadBaseUrl_ok_fields hLB
              have h2 := Sonar.loadServerAddress_ok_fields hLS
              have h0 := hinit o dp
              unfold Sonar.pathInv at h0 ⊢
              rw [h2.1, h2.2, h1.1, h1.2]
              exact h0
            cases hOpt : o.streamerMode with
            | some b =>
                rw [hOpt] at h
                dsimp only at h
                simp at h
                subst h
                exact hinv2
            | none =>
                have hsm : s2.streamerMode = false := by
                  have hf1 := Sonar.loadBaseUrl_ok_fields hLB
                  have hf2 := Sonar.loadServerAddress_ok_fields hLS
                  rw [hf2.2, hf1.2]
                  simp [Sonar.init, hOpt]
                rw [hOpt] at h
                dsimp only at h
                cases hpr : (Sonar.isStreamerMode s2 env.modeProbe).1 with
                | error e =>
                    rw [hpr] at h
                    simp at h
                    subst h
                    unfold Sonar.pathInv at hinv2 ⊢
                    rw [hsm] at hinv2
                    simpa using hinv2
                | ok sm =>
                    rw [hpr] at h
                    cases sm with
                    | true =>
                        simp at h
                        subst h
                        simp [Sonar.pathInv]
                    | false =>
                        simp at h
                        subst h
                        unfold Sonar.pathInv at hinv2 ⊢
                        rw [hsm] at hinv2
                        simpa using hinv2
  · intro s file s' hs h
    have hf := Sonar.loadBaseUrl_ok_fields h
    unfold Sonar.pathInv at hs ⊢
    rw [hf.1, hf.2]
    exact hs
  · intro s net s' hs h
    have hf := Sonar.loadServerAddress_ok_fields h
    unfold Sonar.pathInv at hs ⊢
    rw [hf.1, hf.2]
    exact hs
  · intro s b net s' β net2 h
    have h' : Sonar.setStreamerMode s b net =
        ((Sonar.setStreamerMode s b net).1, (Sonar.setStreamerMode s b net).2) := rfl
    rw [h] at h'
    have hinv := hmode s b net true s' (Sonar.setStreamerMode s b net).2 h'
    have hsm : s'.streamerMode = true := by
      unfold Sonar.setStreamerMode at h
      cases hh : Sonar.handleHttp net with
      | error e => rw [hh] at h; simp at h
      | ok data =>
          rw [hh] at h
          simp at h
          obtain ⟨h1, h2⟩ := h
          subst h2
          simp [h1]
    unfold Sonar.pathInv at hinv
    rw [hsm] at hinv
    simp [Sonar.getVolumeData, hinv]

/-- Claim C4, witness: the constructor invariant at a streamer-mode option,
and the concrete `setStreamerMode(true)` → `getVolumeData` scenario: after
the server echoes "stream", the very next `getVolumeData` GETs the streamer
volume path. -/
theorem C4_path_flag_coherence_witness :
    Sonar.pathInv (Sonar.init ⟨none, some true⟩ "/default/coreProps.json")
  ∧ (Sonar.getVolumeData (β := String) streamerFixture (.response 200 "v")).2 =
      [⟨"GET", streamerFixture.webServerAddress ++ Sonar.STREAMER_VOLUME_PATH⟩] :=
  ⟨C4_path_flag_coherence.1 ⟨none, some true⟩ "/default/coreProps.json",
   C4_path_flag_coherence.2.2.2.2.2 classicFixture true (.response 200 "stream")
     streamerFixture String (.response 200 "v") (by decide)⟩

/-- Claim C7: with a valid channel, when streamer mode is active a slider
outside {streaming, monitoring} makes `setVolume` and `muteChannel` fail
with `SliderNotFoundError` carrying that slider, with no request; when
classic mode is active the same slider value triggers no validation error,
is omitted from the URL, and the call proceeds to its single PUT. -/
theorem C7_slider_validation (s : SonarState) (channel streamerSlider : String)
    (volume : Rat) (muted : Bool) {β : Type} (net net2 : HttpResult β)
    (hch : channel ∈ Sonar.CHANNEL_NAMES)
    (hsl : streamerSlider ∉ Sonar.STREAMER_SLIDER_NAMES) :
    (s.streamerMode = true →
      Sonar.setVolume s channel volume streamerSlider net =
        (.error (.sonar (.sliderNotFound streamerSlider)), []) ∧
      Sonar.muteChannel s channel muted streamerSlider net2 =
        (.error (.sonar (.sliderNotFound streamerSlider)), []))
  ∧ (s.streamerMode = false → 0 ≤ volume → volume ≤ 1 →
      Sonar.setVolume s channel volume streamerSlider net =
        (Sonar.handleHttp net,
         [⟨"PUT", s.webServerAddress ++ s.volumePath ++ "/" ++ channel ++
            "/Volume/" ++ jsonStringifyNum volume⟩]) ∧
      Sonar.muteChannel s channel muted streamerSlider net2 =
        (Sonar.handleHttp net2,
         [⟨"PUT", s.webServerAddress ++ s.volumePath ++ "/" ++ channel ++
            "/" ++ "Mute" ++ "/" ++ jsonStringifyBool muted⟩])) := by
  have hch' : ¬ channel ∉ Sonar.CHANNEL_NAMES := not_not_intro hch
  constructor
  · intro hm
    constructor
    · simp only [Sonar.setVolume, if_neg hch']
      rw [if_pos ⟨hm, hsl⟩]
    · simp only [Sonar.muteChannel, if_neg hch']
      rw [if_pos ⟨hm, hsl⟩]
  · intro hm hv0 hv1
    have hsl' : ¬ (s.streamerMode = true ∧ streamerSlider ∉ Sonar.STREAMER_SLIDER_NAMES) :=
      fun h => by rw [hm] at h; exact Bool.false_ne_true h.1
    have hv' : ¬ (volume < 0 ∨ volume > 1) := by
      push_neg
      exact ⟨hv0, hv1⟩
    constructor
    · simp only [Sonar.setVolume, if_neg hch', if_neg hsl', if_neg hv', hm]
      simp
    · simp only [Sonar.muteChannel, if_neg hch', if_neg hsl', hm]
      simp

/-- Claim C7, witness: slider "bogus" is rejected (with no request) in the
streamer fixture and ignored in the classic fixture, where the call proceeds
and its URL has no slider segment. -/
theorem C7_slider_validation_witness :
    Sonar.setVolume (β := String) streamerFixture "game" (mkRat 1 2) "bogus"
        (.response 200 "ack") =
      (.error (.sonar (.sliderNotFound "bogus")), [])
  ∧ Sonar.muteChannel (β := String) classicFixture "game" true "bogus"
        (.response 200 "ack") =
      (.ok "ack", [⟨"PUT", "http://127.0.0.1:9/volumeSettings/classic/game/Mute/true"⟩]) :=
  ⟨((C7_slider_validation streamerFixture "game" "bogus" (mkRat 1 2) true
      (.response 200 "ack") (.response 200 "ack") (by decide) (by decide)).1
      (by decide)).1,
   (((C7_slider_validation classicFixture "game" "bogus" (mkRat 1 2) true
      (.response 200 "ack") (.response 200 "ack") (by decide) (by decide)).2
      (by decide) (by decide) (by decide)).2).trans (by decide)⟩

/-- Claim C8: with validation satisfied, every public operation's result is
exactly the shared failure translation `handleHttp` of its one HTTP call
(stated directly for the error paths of the two mode operations), and
`handleHttp` turns a non-200 response and a transport error carrying a
response status into `ServerNotAccessibleError` with that status, while a
transport error with no response propagates as the distinct
`OpError.transport` failure. -/
theorem C8_failure_translation (s : SonarState) (channel streamerSlider : String)
    (volume mixVolume : Rat) (muted requested : Bool) (status : Nat) (body : String)
    (hch : channel ∈ Sonar.CHANNEL_NAMES)
    (hsl : s.streamerMode = true → streamerSlider ∈ Sonar.STREAMER_SLIDER_NAMES)
    (hv0 : 0 ≤ volume) (hv1 : volume ≤ 1)
    (hm0 : -1 ≤ mixVolume) (hm1 : mixVolume ≤ 1)
    (hst : status ≠ 200) :
    (∀ net : HttpResult String,
      (Sonar.getVolumeData s net).1 = Sonar.handleHttp net ∧
      (Sonar.setVolume s channel volume streamerSlider net).1 = Sonar.handleHttp net ∧
      (Sonar.muteChannel s channel muted streamerSlider net).1 = Sonar.handleHttp net ∧
      (Sonar.getChatMixData s net).1 = Sonar.handleHttp net ∧
      (Sonar.setChatMix s mixVolume net).1 = Sonar.handleHttp net)
  ∧ ((Sonar.isStreamerMode s (.response status body)).1 =
        .error (.sonar (.serverNotAccessible status)) ∧
      (Sonar.isStreamerMode s (.axiosErrorWithResponse status)).1 =
        .error (.sonar (.serverNotAccessible status)) ∧
      (Sonar.isStreamerMode s .axiosErrorNoResponse).1 = .error .transport)
  ∧ ((Sonar.setStreamerMode s requested (.response status body)).1 =
        .error (.sonar (.serverNotAccessible status)) ∧
      (Sonar.setStreamerMode s requested (.axiosErrorWithResponse status)).1 =
        .error (.sonar (.serverNotAccessible status)) ∧
      (Sonar.setStreamerMode s requested .axiosErrorNoResponse).1 = .error .transport)
  ∧ (Sonar.handleHttp (α := String) (.response status body) =
        .error (.sonar (.serverNotAccessible status)))
  ∧ (Sonar.handleHttp (α := String) (.axiosErrorWithResponse status) =
        .error (.sonar (.serverNotAccessible status)))
  ∧ (Sonar.handleHttp (α := String) .axiosErrorNoResponse = .error .transport)
  ∧ (∀ c, OpError.transport ≠ OpError.sonar (.serverNotAccessible c)) := by
  have hch' : ¬ channel ∉ Sonar.CHANNEL_NAMES := not_not_intro hch
  have hsl' : ¬ (s.streamerMode = true ∧ streamerSlider ∉ Sonar.STREAMER_SLIDER_NAMES) :=
    fun h => h.2 (hsl h.1)
  have hv' : ¬ (volume < 0 ∨ volume > 1) := by
    push_neg
    exact ⟨hv0, hv1⟩
  have hm' : ¬ (mixVolume < -1 ∨ mixVolume > 1) := by
    push_neg
    exact ⟨hm0, hm1⟩
  refine ⟨fun net => ⟨rfl, ?_, ?_, rfl, ?_⟩, ⟨?_, ?_, ?_⟩, ⟨?_, ?_, ?_⟩,
    ?_, ?_, ?_, fun c h => OpError.noConfusion h⟩
  · simp [Sonar.setVolume, if_neg hch', if_neg hsl', if_neg hv']
  · simp [Sonar.muteChannel, if_neg hch', if_neg hsl']
  · simp [Sonar.setChatMix, if_neg hm']
  · simp [Sonar.isStreamerMode, Sonar.handleHttp, hst]
  · simp [Sonar.isStreamerMode, Sonar.handleHttp]
  · simp [Sonar.isStreamerMode, Sonar.handleHttp]
  · simp [Sonar.setStreamerMode, Sonar.handleHttp, hst]
  · simp [Sonar.setStreamerMode, Sonar.handleHttp]
  · simp [Sonar.setStreamerMode, Sonar.handleHttp]
  · simp [Sonar.handleHttp, hst]
  · simp [Sonar.handleHttp]
  · simp [Sonar.handleHttp]

/-- Claim C8, witness: in the classic fixture, an HTTP 500 response makes
`setVolume` raise `ServerNotAccessibleError(500)`, and a transport error
with no response surfaces as the distinct generic failure. -/
theorem C8_failure_translation_witness :
    (Sonar.setVolume (β := String) classicFixture "game" (mkRat 1 2) "streaming"
        (.response 500 "oops")).1 = .error (.sonar (.serverNotAccessible 500))
  ∧ (Sonar.setVolume (β := String) classicFixture "game" (mkRat 1 2) "streaming"
        .axiosErrorNoResponse).1 = .error .transport :=
  ⟨((C8_failure_translation classicFixture "game" "streaming" (mkRat 1 2) 0
      true true 500 "oops" (by decide) (by decide) (by decide) (by decide)
      (by decide) (by decide) (by decide)).1
      (.response 500 "oops")).2.1.trans (by decide),
   ((C8_failure_translation classicFixture "game" "streaming" (mkRat 1 2) 0
      true true 500 "oops" (by decide) (by decide) (by decide) (by decide)
      (by decide) (by decide) (by decide)).1
      .axiosErrorNoResponse).2.1.trans (by decide)⟩

/-- Claim C9: when the factory is called without an explicit streamer-mode
option against a healthy resolution environment, any failure of the
`isStreamerMode` probe is swallowed: construction still succeeds with the
flag false and the classic volume path.  The accompanying conjuncts show the
probe is the only absorption point: every operation surfaces a failing
`handleHttp` outcome unchanged, and a failing `/subApps` lookup fails the
whole construction. -/
theorem C9_probe_failure_swallowed (options : SonarOptions)
    (defaultAppDataPath a : String) (info : SubAppInfo) (probe : HttpResult String)
    (hopt : options.streamerMode = none)
    (hE : info.isEnabled = true) (hR : info.isReady = true)
    (hU : info.isRunning = true)
    (hw1 : info.webServerAddress ≠ "") (hw2 : info.webServerAddress ≠ "null")
    (hfail : ∃ e, Sonar.handleHttp probe = Except.error e) :
    (Sonar.create options defaultAppDataPath
        { file := .parsedObject (some a), subApps := .response 200 info,
          modeProbe := probe }).1 =
      .ok { appDataPath := options.appDataPath.getD defaultAppDataPath
            baseUrl := "https://" ++ a
            webServerAddress := info.webServerAddress
            volumePath := Sonar.VOLUME_PATH
            streamerMode := false }
  ∧ (∀ (t : SonarState) (net : HttpResult String) (e : OpError) (b : Bool),
      Sonar.handleHttp net = .error e →
      (Sonar.getVolumeData t net).1 = .error e ∧
      (Sonar.getChatMixData t net).1 = .error e ∧
      (Sonar.isStreamerMode t net).1 = .error e ∧
      (Sonar.setStreamerMode t b net).1 = .error e)
  ∧ (∀ (sub : HttpResult SubAppInfo) (e : OpError),
      Sonar.handleHttp sub = .error e →
      (Sonar.create options defaultAppDataPath
          { file := .parsedObject (some a), subApps := sub,
            modeProbe := probe }).1 = .error e) := by
  obtain ⟨e, he⟩ := hfail
  refine ⟨?_, ?_, ?_⟩
  · have h200 : Sonar.handleHttp (HttpResult.response 200 info) = .ok info := by
      simp [Sonar.handleHttp]
    simp [Sonar.create, Sonar.init, Sonar.loadBaseUrl, Sonar.loadServerAddress,
      Sonar.isStreamerMode, hopt, hE, hR, hU, hw1, hw2, h200, he]
  · intro t net e' b h
    exact ⟨by simp [Sonar.getVolumeData, h],
      by simp [Sonar.getChatMixData, h],
      by simp [Sonar.isStreamerMode, h],
      by simp [Sonar.setStreamerMode, h]⟩
  · intro sub e' h
    simp [Sonar.create, Sonar.init, Sonar.loadBaseUrl, Sonar.loadServerAddress, h]

/-- Claim C9, witness: the probe-failure conjunct applied with a
connection-refused probe — construction succeeds in classic mode. -/
theorem C9_probe_failure_swallowed_witness :
    (Sonar.create ⟨some "/cfg/coreProps.json", none⟩ "/default/coreProps.json"
        { file := .parsedObject (some "127.0.0.1:8080")
          subApps := .response 200 ⟨true, true, true, "http://127.0.0.1:9"⟩
          modeProbe := .axiosErrorNoResponse }).1 = .ok classicFixture :=
  ((C9_probe_failure_swallowed ⟨some "/cfg/coreProps.json", none⟩
      "/default/coreProps.json" "127.0.0.1:8080"
      ⟨true, true, true, "http://127.0.0.1:9"⟩ .axiosErrorNoResponse
      rfl rfl rfl rfl (by decide) (by decide) ⟨.transport, rfl⟩).1).trans (by decide)

/-- Claim C10: with an explicit streamer-mode option, the factory adopts
that flag (and the matching volume path) unconditionally, issues exactly one
HTTP request — the `/subApps` lookup — and never touches the mode endpoint:
the probe outcome is universally quantified and does not influence the
result, so the client's flag may disagree with the server's actual mode. -/
theorem C10_explicit_mode_no_probe (options : SonarOptions)
    (defaultAppDataPath a : String) (info : SubAppInfo)
    (probe : HttpResult String) (b : Bool)
    (hopt : options.streamerMode = some b)
    (hE : info.isEnabled = true) (hR : info.isReady = true)
    (hU : info.isRunning = true)
    (hw1 : info.webServerAddress ≠ "") (hw2 : info.webServerAddress ≠ "null") :
    Sonar.create options defaultAppDataPath
        { file := .parsedObject (some a), subApps := .response 200 info,
          modeProbe := probe } =
      (.ok { appDataPath := options.appDataPath.getD defaultAppDataPath
             baseUrl := "https://" ++ a
             webServerAddress := info.webServerAddress
             volumePath := if b then Sonar.STREAMER_VOLUME_PATH
               else Sonar.VOLUME_PATH
             streamerMode := b },
       [⟨"GET", "https://" ++ a ++ "/subApps"⟩]) := by
  simp [Sonar.create, Sonar.init, Sonar.loadBaseUrl, Sonar.loadServerAddress,
    Sonar.handleHttp, hopt, hE, hR, hU, hw1, hw2]

/-- Claim C10, witness: explicit streamer mode with a server that actually
reports classic mode — the flag stays true, the path is the streamer path,
and the only request issued is the `/subApps` GET. -/
theorem C10_explicit_mode_no_probe_witness :
    Sonar.create ⟨some "/cfg/coreProps.json", some true⟩ "/default/coreProps.json"
        { file := .parsedObject (some "127.0.0.1:8080")
          subApps := .response 200 ⟨true, true, true, "http://127.0.0.1:9"⟩
          modeProbe := .response 200 "classic" } =
      (.ok streamerFixture, [⟨"GET", "https://127.0.0.1:8080/subApps"⟩]) :=
  (C10_explicit_mode_no_probe ⟨some "/cfg/coreProps.json", some true⟩
      "/default/coreProps.json" "127.0.0.1:8080"
      ⟨true, true, true, "http://127.0.0.1:9"⟩ (.response 200 "classic") true
      rfl rfl rfl rfl (by decide) (by decide)).trans (by decide)
